import Mathlib

/-!
Verification of the healnow-backend analysis pipeline (services/analysis.service.ts
and controllers/analysis.controller.ts).

The untrusted runtime values that flow through the validators are modelled by a
JSON value type; JavaScript truthiness and the `typeof` operator are modelled
explicitly.  JSON numbers are modelled as integers: the code only ever asks
whether a number is zero (truthiness), never for its fractional value.
An absent object property (JS `undefined`) is modelled as `Option.none`.
Duplicate keys inside one object literal are not modelled (first key wins).
-/

namespace HealNow

/-- A parsed JSON value (the possible results of `JSON.parse`), also used for the
arbitrary runtime values an untrusted request can carry in its fields. -/
inductive Json where
  | null
  | bool (b : Bool)
  | num (n : Int)
  | str (s : String)
  | arr (elems : List Json)
  | obj (members : List (String × Json))

/-- JavaScript truthiness of a value: `null`, `false`, `0`, and `""` are falsy;
every array and object is truthy. -/
def jtruthy : Json → Bool
  | .null => false
  | .bool b => b
  | .num n => n != 0
  | .str s => s != ""
  | .arr _ => true
  | .obj _ => true

/-- JavaScript `typeof`.  Note `typeof null`, `typeof []` and `typeof {}` are all
the string "object". -/
def jtypeof : Json → String
  | .null => "object"
  | .bool _ => "boolean"
  | .num _ => "number"
  | .str _ => "string"
  | .arr _ => "object"
  | .obj _ => "object"

/-- Property lookup in an object member list; `none` models JS `undefined`. -/
def lookupField : List (String × Json) → String → Option Json
  | [], _ => none
  | (k1, v) :: rest, k => if k1 = k then some v else lookupField rest k

/-- Property access `j[k]`: only objects have (modelled) properties; on every
other value the access yields `undefined` (`none`). -/
def getField : Json → String → Option Json
  | .obj ms, k => lookupField ms k
  | _, _ => none

/-- Truthiness of a possibly-undefined value: `undefined` is falsy. -/
def otruthy : Option Json → Bool
  | none => false
  | some v => jtruthy v

/-- The `typeof` of a possibly-undefined value. -/
def otypeof : Option Json → String
  | none => "undefined"
  | some v => jtypeof v

/-- Whether a value is a string (used to state wrong-primitive-type facts). -/
def isStr : Json → Bool
  | .str _ => true
  | _ => false

/-- JavaScript whitespace for `String.prototype.trim` (the ASCII whitespace
characters plus NBSP, BOM and the line/paragraph separators). -/
def jsWhitespace (c : Char) : Bool :=
  c == ' ' || c == '\t' || c == '\n' || c == '\r' ||
  c.toNat == 11 || c.toNat == 12 || c.toNat == 160 ||
  c.toNat == 0xFEFF || c.toNat == 0x2028 || c.toNat == 0x2029

/-- JavaScript `s.trim()`: strip leading and trailing whitespace. -/
def jsTrim (s : String) : String :=
  String.mk (((s.data.dropWhile jsWhitespace).reverse.dropWhile jsWhitespace).reverse)

/-- Configuration constant MAX_NAME_LENGTH from analysis.service.ts. -/
def MAX_NAME_LENGTH : Nat := 100

/-- Configuration constant MIN_NAME_LENGTH from analysis.service.ts. -/
def MIN_NAME_LENGTH : Nat := 2

/-- The optional-plus part of PHONE_REGEX from analysis.service.ts (the
fully-anchored pattern: optional plus, one digit 1-9, up to 15 digits):
consume one leading plus sign when present. -/
def stripLeadingPlus (cs : List Char) : List Char :=
  match cs with
  | c :: rest => if c = '+' then rest else c :: rest
  | [] => []

/-- PHONE_REGEX applied to a string: strip one optional leading plus, then the
remainder must be a first digit 1-9 followed by at most 15 digits. -/
def phoneRegexTest (s : String) : Bool :=
  match stripLeadingPlus s.data with
  | [] => false
  | c :: rest =>
      decide ('1' ≤ c) && decide (c ≤ '9') && decide (rest.length ≤ 15) &&
        rest.all Char.isDigit

/-- The test of DATA_URI_REGEX from analysis.service.ts: the string must start
with data colon image slash, one of the four MIME subtypes, then
semicolon base64 comma (the regex is anchored only at the start). -/
def listStartsWith : List Char → List Char → Bool
  | _, [] => true
  | [], _ :: _ => false
  | c :: cs, p :: ps => (c == p) && listStartsWith cs ps

/-- DATA_URI_REGEX applied to a string. -/
def dataUriTest (s : String) : Bool :=
  listStartsWith s.data "data:image/jpeg;base64,".data ||
  listStartsWith s.data "data:image/jpg;base64,".data ||
  listStartsWith s.data "data:image/png;base64,".data ||
  listStartsWith s.data "data:image/webp;base64,".data

/-- One step of JavaScript `s.split(',')`: split the character list at every
comma, keeping empty segments, exactly as the JS method does. -/
def splitOnCommaAux : List Char → List Char → List (List Char)
  | [], acc => [acc.reverse]
  | c :: rest, acc =>
      if c = ',' then acc.reverse :: splitOnCommaAux rest []
      else splitOnCommaAux rest (c :: acc)

/-- JavaScript `s.split(',')`. -/
def jsSplitComma (s : String) : List String :=
  (splitOnCommaAux s.data []).map String.mk

/-- The insufficiency condition of validateImageDataURI: the second segment of
the comma-split (JS `imageData.split(',')[1]`) is absent, empty (falsy) or
shorter than 100 characters. -/
def insufficientBase64 (s : String) : Bool :=
  match (jsSplitComma s).get? 1 with
  | none => true
  | some seg => seg == "" || seg.length < 100

/-- validateDentistName from analysis.service.ts.  The argument is the raw
runtime value of the field (`none` = absent).  A falsy or non-string value
takes the early "required" return; otherwise the trimmed length is checked
against both bounds (the two checks accumulate). -/
def validateDentistName (name : Option Json) : List String :=
  match name with
  | some (.str s) =>
      if s == "" then ["Dentist name is required"]
      else
        (if (jsTrim s).length < MIN_NAME_LENGTH then
            ["Dentist name must be at least 2 characters long"] else [])
        ++ (if (jsTrim s).length > MAX_NAME_LENGTH then
            ["Dentist name must not exceed 100 characters"] else [])
  | _ => ["Dentist name is required"]

/-- validateMobileNumber from analysis.service.ts. -/
def validateMobileNumber (mobile : Option Json) : List String :=
  match mobile with
  | some (.str s) =>
      if s == "" then ["Dentist mobile number is required"]
      else if !(phoneRegexTest (jsTrim s)) then ["Please provide a valid mobile number"]
      else []
  | _ => ["Dentist mobile number is required"]

/-- validatePatientName from analysis.service.ts: the field is optional
(`undefined` and `null` are skipped), a present non-string value gets an
explicit type error, and a string is only bounded above in length. -/
def validatePatientName (name : Option Json) : List String :=
  match name with
  | none => []
  | some .null => []
  | some (.str s) =>
      if (jsTrim s).length > MAX_NAME_LENGTH then
        ["Patient name must not exceed 100 characters"] else []
  | some _ => ["Patient name must be a string"]

/-- validateImageDataURI from analysis.service.ts.  The try/catch around the
split is dead code in JS (split on a string never throws) and has no model.
The URI-format check and the base64-size check accumulate. -/
def validateImageDataURI (imageData : Option Json) (fieldName : String) : List String :=
  match imageData with
  | some (.str s) =>
      if s == "" then [fieldName ++ " is required"]
      else
        (if !(dataUriTest s) then
            [fieldName ++ " must be a valid image data URI (jpeg, jpg, png, or webp)"] else [])
        ++ (if insufficientBase64 s then
            [fieldName ++ " appears to contain invalid or insufficient image data"] else [])
  | _ => [fieldName ++ " is required"]

/-- The raw runtime shape of an incoming AnalysisRequest body: each declared
field may be absent (`none`) or hold an arbitrary runtime value. -/
structure AnalysisRequest where
  dentistName : Option Json
  dentistMobileNumber : Option Json
  patientName : Option Json
  toothImage1 : Option Json
  toothImage2 : Option Json

/-- The ValidationResult shape returned by validateAnalysisRequest. -/
structure ValidationResult where
  isValid : Bool
  errors : List String
deriving DecidableEq, Repr

/-- validateAnalysisRequest from analysis.service.ts: the five validators run
unconditionally in source order and their errors are concatenated; isValid is
the emptiness test of the accumulated list. -/
def validateAnalysisRequest (requestData : AnalysisRequest) : ValidationResult :=
  let errors :=
    validateDentistName requestData.dentistName
    ++ validateMobileNumber requestData.dentistMobileNumber
    ++ validatePatientName requestData.patientName
    ++ validateImageDataURI requestData.toothImage1 "toothImage1"
    ++ validateImageDataURI requestData.toothImage2 "toothImage2"
  { isValid := errors.length == 0, errors := errors }

/-- The shape of an ApiError thrown by the service and controller layers:
a numeric status code and a human-readable message. -/
structure ApiErr where
  statusCode : Nat
  message : String
deriving DecidableEq, Repr

/-- The line of parseAnalysisResponse that locates the payload: JS
`parsed.final_recommendation || parsed` — the value under the wrapper key if it
is present and truthy, otherwise the top-level value itself. -/
def finalRecOf (parsed : Json) : Json :=
  match getField parsed "final_recommendation" with
  | some v => if jtruthy v then v else parsed
  | none => parsed

/-- The check `!(!v || typeof v !== 'string')` for the property `k` of `j`:
the property holds a truthy string, i.e. a non-empty string. -/
def nonEmptyStringField (j : Json) (k : String) : Bool :=
  otruthy (getField j k) && (otypeof (getField j k) == "string")

/-- The check `Array.isArray(v) && v.length !== 0` for zonal_analysis. -/
def zonalArrayOk (j : Json) : Bool :=
  match getField j "zonal_analysis" with
  | some (.arr zs) => !zs.isEmpty
  | _ => false

/-- The per-element check of the zonal-analysis loop: all four properties of
one zone element are truthy. -/
def zoneFieldsOk (z : Json) : Bool :=
  otruthy (getField z "zone") && otruthy (getField z "vita_classical") &&
  otruthy (getField z "vita_3d_master") && otruthy (getField z "notes")

/-- The value of the zonal_analysis property as a list, the loop's iteration
domain (the loop is only reached after zonalArrayOk has established that the
property holds an array). -/
def zonalListOf (j : Json) : List Json :=
  match getField j "zonal_analysis" with
  | some (.arr zs) => zs
  | _ => []

/-- The zonal-analysis loop of parseAnalysisResponse, with the JS error path
the source exhibits: iterating in order, a null element makes the property
access zone.zone throw a TypeError, which the function's catch converts to the
500 invalid-JSON-format ApiError; a non-null element with any falsy required
field throws the zonal-structure ApiError (property access on a non-null
primitive or array yields undefined in JS and does not throw; JSON.parse never
produces undefined elements).  `none` means the loop completed. -/
def zonesLoopError : List Json → Option ApiErr
  | [] => none
  | z :: rest =>
      match z with
      | .null => some ⟨500, "Failed to parse analysis response: Invalid JSON format"⟩
      | _ =>
          if !(zoneFieldsOk z) then
            some ⟨500, "Invalid zonal analysis structure in response"⟩
          else zonesLoopError rest

/-- The check `!(!layered || typeof layered !== 'object')`. -/
def layeredPresent (j : Json) : Bool :=
  otruthy (getField j "layered_recommendation") &&
    (otypeof (getField j "layered_recommendation") == "object")

/-- The final check of parseAnalysisResponse: the three sub-fields of the
layered recommendation are truthy. -/
def layeredFieldsOk (j : Json) : Bool :=
  match getField j "layered_recommendation" with
  | some l => otruthy (getField l "dentin_layer") && otruthy (getField l "enamel_layer")
      && otruthy (getField l "cervical_tint")
  | none => false

/-- parseAnalysisResponse from analysis.service.ts, after `JSON.parse` has
succeeded with value `parsed`.  Each branch is the source's check in source
order, each throw is an `.error`, the zonal loop (including the TypeError a
null element raises, converted by the function's own catch) is
`zonesLoopError`, and the successful return is the located payload itself,
unchanged. -/
def parseAnalysisResponse (parsed : Json) : Except ApiErr Json :=
  if !(jtruthy parsed) || !(jtypeof parsed == "object") then
    .error ⟨500, "Invalid response format from analysis service"⟩
  else if !(nonEmptyStringField (finalRecOf parsed) "estimated_tooth_type") then
    .error ⟨500, "Missing or invalid estimated_tooth_type in analysis response"⟩
  else if !(zonalArrayOk (finalRecOf parsed)) then
    .error ⟨500, "Missing or invalid zonal_analysis in analysis response"⟩
  else if !(nonEmptyStringField (finalRecOf parsed) "general_suggestion") then
    .error ⟨500, "Missing or invalid general_suggestion in analysis response"⟩
  else if !(layeredPresent (finalRecOf parsed)) then
    .error ⟨500, "Missing or invalid layered_recommendation in analysis response"⟩
  else
    match zonesLoopError (zonalListOf (finalRecOf parsed)) with
    | some e => .error e
    | none =>
        if !(layeredFieldsOk (finalRecOf parsed)) then
          .error ⟨500, "Invalid layered recommendation structure in response"⟩
        else
          .ok (finalRecOf parsed)

/-- The catch wrapper of parseAnalysisResponse: a `JSON.parse` failure (`none`)
becomes the invalid-JSON ApiError; ApiErrors thrown inside the try are
rethrown unchanged. -/
def parseAnalysisResponseRaw (parseResult : Option Json) : Except ApiErr Json :=
  match parseResult with
  | none => .error ⟨500, "Failed to parse analysis response: Invalid JSON format"⟩
  | some j => parseAnalysisResponse j

/-- A thrown JavaScript Error object as the error classifiers observe it:
its name, message and optional `code` property. -/
structure JsErrorObj where
  name : String
  message : String
  code : Option String

/-- A value thrown inside the pipeline: either an ApiError of this codebase or
a foreign Error (e.g. from the OpenAI client or the network stack). -/
inductive Thrown where
  | api (e : ApiErr)
  | js (e : JsErrorObj)

/-- JavaScript `s.includes(pat)`. -/
def strIncludes (s pat : String) : Bool := decide (pat.data <:+: s.data)

/-- The catch block of processToothAnalysis (analysis.service.ts): ApiErrors
pass through; an Error is classified by message markers 401/authentication,
429, timeout; everything else becomes the generic 500. -/
def processToothAnalysisCatch : Thrown → ApiErr
  | .api e => e
  | .js e =>
      if strIncludes e.message "401" || strIncludes e.message "authentication" then
        ⟨401, "Authentication failed with analysis service"⟩
      else if strIncludes e.message "429" then
        ⟨429, "Analysis service rate limit exceeded"⟩
      else if strIncludes e.message "timeout" then
        ⟨408, "Analysis service request timeout"⟩
      else
        ⟨500, "Failed to process tooth analysis"⟩

/-- The catch block of analyzeToothShade (analysis.controller.ts): ApiErrors
pass through; otherwise message markers, then the `error.code` test for
ECONNREFUSED/ENOTFOUND, then the SyntaxError/JSON test, then the generic 500.
The message-marker branches require a truthy (non-empty) message. -/
def analyzeToothShadeCatch : Thrown → ApiErr
  | .api e => e
  | .js e =>
      if e.message != "" && strIncludes e.message "401" then
        ⟨401, "Authentication failed with analysis service"⟩
      else if e.message != "" && strIncludes e.message "429" then
        ⟨429, "Analysis service rate limit exceeded. Please try again later"⟩
      else if e.message != "" && strIncludes e.message "timeout" then
        ⟨408, "Analysis service request timeout. Please try again"⟩
      else if e.code == some "ECONNREFUSED" || e.code == some "ENOTFOUND" then
        ⟨503, "Analysis service temporarily unavailable"⟩
      else if e.name == "SyntaxError" && strIncludes e.message "JSON" then
        ⟨500, "Invalid response format from analysis service"⟩
      else
        ⟨500, "Failed to process tooth shade analysis"⟩

/-- The composed failure path of one analysis pipeline run whose external model
call threw `e`: the service-layer catch classifies first and always produces an
ApiError, which the controller catch then passes through unchanged. -/
def pipelineFailure (e : Thrown) : ApiErr :=
  analyzeToothShadeCatch (.api (processToothAnalysisCatch e))

/-- The request as createAnalysisRecord receives it after validation: the
required fields are strings; the optional patient name is a string or absent
(`none` models both `undefined` and `null`, which behave identically there). -/
structure ValidatedAnalysisRequest where
  dentistName : String
  dentistMobileNumber : String
  patientName : Option String
  toothImage1 : String
  toothImage2 : String

/-- The AnalysisRecord shape.  `patientName = none` means the key is absent
from the record object. -/
structure AnalysisRecord where
  id : String
  dentistName : String
  dentistMobileNumber : String
  patientName : Option String
  toothImage1 : String
  toothImage2 : String
  date : String
  analysis : Json

/-- createAnalysisRecord from analysis.service.ts.  The impure identifier and
timestamp are passed in as parameters; the patientName key is added only when
the request value is truthy, and then holds the trimmed value. -/
def createAnalysisRecord (id date : String) (request : ValidatedAnalysisRequest)
    (analysis : Json) : AnalysisRecord :=
  let record : AnalysisRecord :=
    { id := id
      dentistName := jsTrim request.dentistName
      dentistMobileNumber := jsTrim request.dentistMobileNumber
      patientName := none
      toothImage1 := request.toothImage1
      toothImage2 := request.toothImage2
      date := date
      analysis := .obj [("final_recommendation", analysis)] }
  match request.patientName with
  | some s => if s != "" then { record with patientName := some (jsTrim s) } else record
  | none => record

/-- A value that JS `typeof` calls "object" and that is truthy: an array or an
object.  `isObjLike j = false` exactly characterizes null, booleans, numbers
and strings. -/
def isObjLike : Json → Bool
  | .arr _ => true
  | .obj _ => true
  | _ => false

/-- Claim-side description of a well-formed recommendation payload, written
from the words of claim C1: a non-empty estimated_tooth_type string, a
non-empty zonal_analysis array whose every element has all four fields truthy,
a non-empty general_suggestion string, and a layered_recommendation object
with all three layer fields truthy. -/
def wellFormedPayload (p : Json) : Bool :=
  (match getField p "estimated_tooth_type" with
   | some (.str s) => s != ""
   | _ => false) &&
  (match getField p "zonal_analysis" with
   | some (.arr zs) => !zs.isEmpty && zs.all zoneFieldsOk
   | _ => false) &&
  (match getField p "general_suggestion" with
   | some (.str s) => s != ""
   | _ => false) &&
  (match getField p "layered_recommendation" with
   | some (.obj ms) =>
       otruthy (lookupField ms "dentin_layer") && otruthy (lookupField ms "enamel_layer")
         && otruthy (lookupField ms "cervical_tint")
   | _ => false)

/-- Claim-side description of the phone pattern, written from the words of
claim C10: an optional leading plus, then a first digit between 1 and 9, then
at most 15 further digits. -/
def PhonePattern (s : String) : Prop :=
  ∃ digits : List Char, (s.data = digits ∨ s.data = '+' :: digits) ∧
    ∃ c rest, digits = c :: rest ∧ '1' ≤ c ∧ c ≤ '9' ∧ rest.length ≤ 15 ∧
      ∀ d ∈ rest, d.isDigit = true

/-- The characters after the first comma of a list, `none` when there is no
comma (claim-side notion for claim C8). -/
def afterFirstComma : List Char → Option (List Char)
  | [] => none
  | c :: rest => if c = ',' then some rest else afterFirstComma rest

/-- Claim-side insufficiency for claim C8 as the code actually computes it:
there is no comma, or the segment between the first and the second comma
(equivalently, the part after the first comma cut at the next comma) is
shorter than 100 characters. -/
def secondSegmentTooShort (s : String) : Bool :=
  match afterFirstComma s.data with
  | none => true
  | some rest => decide ((rest.takeWhile (fun c => !(c == ','))).length < 100)

/-- A syntactically minimal valid image value: a png data URI carrying a
100-character base64 segment. -/
def validImageStr : String := "data:image/png;base64," ++ String.mk (List.replicate 100 'A')

/-- The round-trip payload of the specification: tooth type Central Incisor,
three zones, a general suggestion and all three layered fields. -/
def roundTripPayload : Json := .obj [
  ("estimated_tooth_type", .str "Central Incisor"),
  ("zonal_analysis", .arr [
    .obj [("zone", .str "Cervical Third"), ("vita_classical", .str "A3"),
          ("vita_3d_master", .str "3M2"), ("notes", .str "warmer chroma")],
    .obj [("zone", .str "Middle Third"), ("vita_classical", .str "A2"),
          ("vita_3d_master", .str "2M2"), ("notes", .str "uniform body shade")],
    .obj [("zone", .str "Incisal Third"), ("vita_classical", .str "A1"),
          ("vita_3d_master", .str "1M2"), ("notes", .str "translucent edge")]]),
  ("general_suggestion", .str "use A2 body with A1 incisal"),
  ("layered_recommendation", .obj [
    ("dentin_layer", .str "A2"), ("enamel_layer", .str "A1"),
    ("cervical_tint", .str "warm")])]

/-- The round-trip payload wrapped under the final_recommendation key. -/
def roundTripWrapped : Json := .obj [("final_recommendation", roundTripPayload)]

/-- A parsed response whose zonal element is invalid and whose
general_suggestion is missing: under the validation order stated by claim C2
the zonal element check would fail first, but the code reports the
general_suggestion field. -/
def orderCexInput : Json := .obj [
  ("estimated_tooth_type", .str "Canine"),
  ("zonal_analysis", .arr [.obj []])]

/-- A parsed response that is valid at the top level but whose zonal_analysis
holds a single null element: the loop's zone.zone access throws a TypeError,
which the catch converts to the invalid-JSON-format message. -/
def nullZoneInput : Json := .obj [
  ("estimated_tooth_type", .str "Canine"),
  ("zonal_analysis", .arr [.null]),
  ("general_suggestion", .str "use A3 dentin"),
  ("layered_recommendation", .obj [
    ("dentin_layer", .str "A3"), ("enamel_layer", .str "A1"),
    ("cervical_tint", .str "warm")])]

/-- A request whose patientName carries the wrong primitive type (a number)
and whose other fields are valid. -/
def wrongTypeRequest : AnalysisRequest :=
  { dentistName := some (.str "Dr. Lee")
    dentistMobileNumber := some (.str "+1234567890")
    patientName := some (.num 5)
    toothImage1 := some (.str validImageStr)
    toothImage2 := some (.str validImageStr) }

/-- A validated request whose optional patient name is a whitespace-only
string (accepted by validation, truthy in JS). -/
def whitespacePatientRequest : ValidatedAnalysisRequest :=
  { dentistName := "Dr. Lee"
    dentistMobileNumber := "+1234567890"
    patientName := some "   "
    toothImage1 := validImageStr
    toothImage2 := validImageStr }

/-- An image string whose text after the first comma is 151 characters long,
but whose segment between the first and second comma is only 50 characters:
JS split(',')[1] sees the short segment. -/
def commaImageStr : String :=
  "data:image/png;base64," ++ String.mk (List.replicate 50 'B') ++ ","
    ++ String.mk (List.replicate 100 'C')

/-- The thrown error of a refused connection as the OpenAI client surfaces it:
an Error whose code property is ECONNREFUSED and whose message carries no
401/429/timeout marker. -/
def connRefusedError : JsErrorObj :=
  { name := "Error", message := "Connection error.", code := some "ECONNREFUSED" }

/-- Completion of the zonal loop: when every element passes zoneFieldsOk the
loop reports no error (a passing element is in particular an object, hence
not null). -/
lemma zonesLoopError_none_of_all (zs : List Json) (h : zs.all zoneFieldsOk = true) :
    zonesLoopError zs = none := by
  induction zs with
  | nil => rfl
  | cons z rest ih =>
      simp only [List.all_cons, Bool.and_eq_true] at h
      obtain ⟨hz, hrest⟩ := h
      cases z with
      | null => simp [zoneFieldsOk, getField, otruthy] at hz
      | bool b => simp [zonesLoopError, hz, ih hrest]
      | num n => simp [zonesLoopError, hz, ih hrest]
      | str s => simp [zonesLoopError, hz, ih hrest]
      | arr es => simp [zonesLoopError, hz, ih hrest]
      | obj ms => simp [zonesLoopError, hz, ih hrest]

/-- Claim C1: for every parsed model response whose accepted payload location
(the truthy value under the final_recommendation wrapper key if any, else the
top level) is a well-formed payload — non-empty estimated_tooth_type string,
non-empty zonal_analysis array of elements with all four fields truthy,
non-empty general_suggestion string, layered_recommendation object with its
three fields truthy — parseAnalysisResponse succeeds and returns exactly that
payload value: every field of the result is, verbatim, the corresponding field
of the input payload, with no transformation. -/
theorem parse_roundtrip_verbatim (parsed : Json)
    (h : wellFormedPayload (finalRecOf parsed) = true) :
    parseAnalysisResponse parsed = .ok (finalRecOf parsed) := by
  have hg : jtruthy parsed = true ∧ jtypeof parsed = "object" := by
    cases parsed <;>
      first
        | exact ⟨rfl, rfl⟩
        | simp [wellFormedPayload, finalRecOf, getField] at h
  simp only [wellFormedPayload, Bool.and_eq_true] at h
  obtain ⟨⟨⟨ht, hz⟩, hgen⟩, hlay⟩ := h
  have c1 : nonEmptyStringField (finalRecOf parsed) "estimated_tooth_type" = true := by
    cases hf : getField (finalRecOf parsed) "estimated_tooth_type" with
    | none => rw [hf] at ht; simp at ht
    | some v =>
        rw [hf] at ht
        cases v <;> simp_all [nonEmptyStringField, hf, otruthy, otypeof, jtruthy, jtypeof]
  have c2 : zonalArrayOk (finalRecOf parsed) = true ∧
      zonesLoopError (zonalListOf (finalRecOf parsed)) = none := by
    cases hf : getField (finalRecOf parsed) "zonal_analysis" with
    | none => rw [hf] at hz; simp at hz
    | some v =>
        rw [hf] at hz
        cases v with
        | arr zs =>
            simp only [Bool.and_eq_true] at hz
            refine ⟨by simp [zonalArrayOk, hf, hz.1], ?_⟩
            have hlist : zonalListOf (finalRecOf parsed) = zs := by
              simp [zonalListOf, hf]
            rw [hlist]
            exact zonesLoopError_none_of_all zs hz.2
        | null => simp at hz
        | bool b => simp at hz
        | num n => simp at hz
        | str s => simp at hz
        | obj ms => simp at hz
  have c3 : nonEmptyStringField (finalRecOf parsed) "general_suggestion" = true := by
    cases hf : getField (finalRecOf parsed) "general_suggestion" with
    | none => rw [hf] at hgen; simp at hgen
    | some v =>
        rw [hf] at hgen
        cases v <;> simp_all [nonEmptyStringField, hf, otruthy, otypeof, jtruthy, jtypeof]
  have c4 : layeredPresent (finalRecOf parsed) = true ∧
      layeredFieldsOk (finalRecOf parsed) = true := by
    cases hf : getField (finalRecOf parsed) "layered_recommendation" with
    | none => rw [hf] at hlay; simp at hlay
    | some v =>
        rw [hf] at hlay
        cases v <;>
          simp_all [layeredPresent, layeredFieldsOk, getField, hf, otruthy, otypeof,
            jtruthy, jtypeof]
  simp [parseAnalysisResponse, hg.1, hg.2, c1, c2.1, c2.2, c3, c4.1, c4.2]

/-- Witness for claim C1: the specification's Central Incisor response, wrapped
under final_recommendation, parses to exactly its payload. -/
theorem parse_roundtrip_verbatim_witness :
    parseAnalysisResponse roundTripWrapped = .ok roundTripPayload :=
  parse_roundtrip_verbatim roundTripWrapped (by rfl)

/-- Claim C2 (amended): on a response passing the object gate, the checks run
in the code's order — estimated_tooth_type, zonal_analysis as a non-empty
array, general_suggestion, layered_recommendation presence, then the zonal
elements in order, then the three layered sub-fields — and the first failing
check aborts with its specific error, so an incomplete recommendation is never
returned.  In the element loop the error depends on the failing element: a
null element aborts through a thrown TypeError that the catch converts to the
invalid-JSON-format message (conjunct on .null), while a non-null element with
a falsy required field aborts with the zonal-structure message (last
conjunct). -/
theorem parse_first_failing_check (parsed : Json)
    (h1 : jtruthy parsed = true) (h2 : jtypeof parsed = "object") :
    (nonEmptyStringField (finalRecOf parsed) "estimated_tooth_type" = false →
      parseAnalysisResponse parsed =
        .error ⟨500, "Missing or invalid estimated_tooth_type in analysis response"⟩)
    ∧ (nonEmptyStringField (finalRecOf parsed) "estimated_tooth_type" = true →
        zonalArrayOk (finalRecOf parsed) = false →
      parseAnalysisResponse parsed =
        .error ⟨500, "Missing or invalid zonal_analysis in analysis response"⟩)
    ∧ (nonEmptyStringField (finalRecOf parsed) "estimated_tooth_type" = true →
        zonalArrayOk (finalRecOf parsed) = true →
        nonEmptyStringField (finalRecOf parsed) "general_suggestion" = false →
      parseAnalysisResponse parsed =
        .error ⟨500, "Missing or invalid general_suggestion in analysis response"⟩)
    ∧ (nonEmptyStringField (finalRecOf parsed) "estimated_tooth_type" = true →
        zonalArrayOk (finalRecOf parsed) = true →
        nonEmptyStringField (finalRecOf parsed) "general_suggestion" = true →
        layeredPresent (finalRecOf parsed) = false →
      parseAnalysisResponse parsed =
        .error ⟨500, "Missing or invalid layered_recommendation in analysis response"⟩)
    ∧ (nonEmptyStringField (finalRecOf parsed) "estimated_tooth_type" = true →
        zonalArrayOk (finalRecOf parsed) = true →
        nonEmptyStringField (finalRecOf parsed) "general_suggestion" = true →
        layeredPresent (finalRecOf parsed) = true →
        ∀ e : ApiErr, zonesLoopError (zonalListOf (finalRecOf parsed)) = some e →
      parseAnalysisResponse parsed = .error e)
    ∧ (nonEmptyStringField (finalRecOf parsed) "estimated_tooth_type" = true →
        zonalArrayOk (finalRecOf parsed) = true →
        nonEmptyStringField (finalRecOf parsed) "general_suggestion" = true →
        layeredPresent (finalRecOf parsed) = true →
        zonesLoopError (zonalListOf (finalRecOf parsed)) = none →
        layeredFieldsOk (finalRecOf parsed) = false →
      parseAnalysisResponse parsed =
        .error ⟨500, "Invalid layered recommendation structure in response"⟩)
    ∧ (nonEmptyStringField (finalRecOf parsed) "estimated_tooth_type" = true →
        zonalArrayOk (finalRecOf parsed) = true →
        nonEmptyStringField (finalRecOf parsed) "general_suggestion" = true →
        layeredPresent (finalRecOf parsed) = true →
        zonesLoopError (zonalListOf (finalRecOf parsed)) = none →
        layeredFieldsOk (finalRecOf parsed) = true →
      parseAnalysisResponse parsed = .ok (finalRecOf parsed))
    ∧ (∀ rest : List Json, zonesLoopError (.null :: rest) =
        some ⟨500, "Failed to parse analysis response: Invalid JSON format"⟩)
    ∧ (∀ z : Json, ∀ rest : List Json, z ≠ .null → zoneFieldsOk z = false →
        zonesLoopError (z :: rest) =
          some ⟨500, "Invalid zonal analysis structure in response"⟩) := by
  refine ⟨?_, ?_, ?_, ?_, ?_, ?_, ?_, ?_, ?_⟩
  · intros; simp_all [parseAnalysisResponse]
  · intros; simp_all [parseAnalysisResponse]
  · intros; simp_all [parseAnalysisResponse]
  · intros; simp_all [parseAnalysisResponse]
  · intros; simp_all [parseAnalysisResponse]
  · intros; simp_all [parseAnalysisResponse]
  · intros; simp_all [parseAnalysisResponse]
  · intro rest; rfl
  · intro z rest hz hfk
    cases z <;> simp_all [zonesLoopError]

/-- Witness for claim C2: the unwrapped Central Incisor payload passes every
check and is returned unchanged, and a null zonal element in an otherwise
valid response yields the invalid-JSON-format error of the TypeError path. -/
theorem parse_first_failing_check_witness :
    parseAnalysisResponse roundTripPayload = .ok roundTripPayload
    ∧ parseAnalysisResponse nullZoneInput =
        .error ⟨500, "Failed to parse analysis response: Invalid JSON format"⟩ :=
  ⟨(parse_first_failing_check roundTripPayload rfl rfl).2.2.2.2.2.2.1
      rfl rfl rfl rfl rfl rfl,
   (parse_first_failing_check nullZoneInput rfl rfl).2.2.2.2.1
      rfl rfl rfl rfl ⟨500, "Failed to parse analysis response: Invalid JSON format"⟩ rfl⟩

/-- Counterexample for claim C2 as stated: in orderCexInput the zonal element
is invalid (its four fields are missing), which under the claimed order —
full zonal validation before general_suggestion — would abort with a
zonal-analysis error; the code instead reports the missing general_suggestion,
because element-level validation runs after all top-level presence checks. -/
theorem parse_order_counterexample :
    parseAnalysisResponse orderCexInput =
      .error ⟨500, "Missing or invalid general_suggestion in analysis response"⟩
    ∧ zoneFieldsOk (Json.obj []) = false
    ∧ ¬ ("zonal".data <:+:
          "Missing or invalid general_suggestion in analysis response".data) := by
  refine ⟨by rfl, by rfl, by decide⟩

/-- Claim C3: validateAnalysisRequest is a total function of the five raw field
values (it never throws: every malformed, wrongly-typed or absent field value
is handled by the per-field validators), its error list is exactly the ordered
concatenation dentist name, mobile number, patient name, image 1, image 2
(errors accumulate, no short-circuit), and isValid is true iff that list is
empty. -/
theorem validateAnalysisRequest_total_ordered_accumulating (requestData : AnalysisRequest) :
    (validateAnalysisRequest requestData).errors =
      validateDentistName requestData.dentistName
      ++ validateMobileNumber requestData.dentistMobileNumber
      ++ validatePatientName requestData.patientName
      ++ validateImageDataURI requestData.toothImage1 "toothImage1"
      ++ validateImageDataURI requestData.toothImage2 "toothImage2"
    ∧ ((validateAnalysisRequest requestData).isValid = true ↔
        (validateAnalysisRequest requestData).errors = []) := by
  refine ⟨rfl, ?_⟩
  simp [validateAnalysisRequest, List.length_eq_zero]

/-- Claim C4 (code bug): when the external model call fails with a
connection-refused error, the service-layer catch of processToothAnalysis wraps
it into the generic 500 ApiError first, and the controller passes ApiErrors
through unchanged — so the pipeline reports 500, not the 503 the claim (and
the controller's own dead ECONNREFUSED branch, third conjunct) intends. -/
theorem connection_refused_misclassified_as_500 :
    pipelineFailure (.js connRefusedError) = ⟨500, "Failed to process tooth analysis"⟩
    ∧ (pipelineFailure (.js connRefusedError)).statusCode ≠ 503
    ∧ analyzeToothShadeCatch (.js connRefusedError) =
        ⟨503, "Analysis service temporarily unavailable"⟩ := by
  refine ⟨by decide, by decide, by decide⟩

/-- Claim C5 (amended): syntactically valid JSON that passes the object gate
and the estimated_tooth_type check but lacks zonal_analysis as a non-empty
array fails with the message naming zonal_analysis. -/
theorem parse_zonal_missing_named (parsed : Json)
    (h1 : jtruthy parsed = true) (h2 : jtypeof parsed = "object")
    (h3 : nonEmptyStringField (finalRecOf parsed) "estimated_tooth_type" = true)
    (h4 : zonalArrayOk (finalRecOf parsed) = false) :
    parseAnalysisResponse parsed =
      .error ⟨500, "Missing or invalid zonal_analysis in analysis response"⟩
    ∧ "zonal_analysis".data <:+:
        "Missing or invalid zonal_analysis in analysis response".data := by
  refine ⟨?_, by decide⟩
  simp_all [parseAnalysisResponse]

/-- Witness for claim C5: an object with only a tooth type fails with the
zonal_analysis message. -/
theorem parse_zonal_missing_named_witness :
    parseAnalysisResponse (.obj [("estimated_tooth_type", .str "Canine")]) =
      .error ⟨500, "Missing or invalid zonal_analysis in analysis response"⟩ :=
  (parse_zonal_missing_named (.obj [("estimated_tooth_type", .str "Canine")])
    rfl rfl rfl rfl).1

/-- Counterexample for claim C5 as stated: the empty JSON object lacks
zonal_analysis as a non-empty array, yet the failure message names
estimated_tooth_type (the earlier check), not zonal_analysis. -/
theorem parse_zonal_claim_counterexample :
    parseAnalysisResponse (.obj []) =
      .error ⟨500, "Missing or invalid estimated_tooth_type in analysis response"⟩
    ∧ ¬ ("zonal_analysis".data <:+:
          "Missing or invalid estimated_tooth_type in analysis response".data) := by
  refine ⟨by rfl, by decide⟩

/-- Claim C6 (amended): a wrong-primitive-type value in dentistName,
dentistMobileNumber, toothImage1 or toothImage2 is reported with that field's
required-field-missing message; but a present non-null non-string patientName
is reported with the explicit type-error message, and a null patientName is
skipped entirely. -/
theorem wrong_primitive_type_messages (v : Json) (h : isStr v = false) :
    validateDentistName (some v) = ["Dentist name is required"]
    ∧ validateMobileNumber (some v) = ["Dentist mobile number is required"]
    ∧ (∀ f : String, validateImageDataURI (some v) f = [f ++ " is required"])
    ∧ (v ≠ .null → validatePatientName (some v) = ["Patient name must be a string"])
    ∧ (v = .null → validatePatientName (some v) = []) := by
  cases v <;>
    simp_all [isStr, validateDentistName, validateMobileNumber, validateImageDataURI,
      validatePatientName]

/-- Witness for claim C6: the number 5 in a required name field gives the
required message, and in patientName gives the type-error message. -/
theorem wrong_primitive_type_messages_witness :
    validateDentistName (some (.num 5)) = ["Dentist name is required"]
    ∧ validatePatientName (some (.num 5)) = ["Patient name must be a string"] :=
  ⟨(wrong_primitive_type_messages (.num 5) rfl).1,
   (wrong_primitive_type_messages (.num 5) rfl).2.2.2.1 (fun h => Json.noConfusion h)⟩

/-- Counterexample for claim C6 as stated: a request whose patientName is the
number 5 (and every other field valid) is reported with the type-error message
"Patient name must be a string", not with a required-field-missing message. -/
theorem patientName_wrong_type_message :
    validateAnalysisRequest wrongTypeRequest =
      { isValid := false, errors := ["Patient name must be a string"] } := by decide

/-- Claim C7 (amended): the record carries a patientName key iff the request's
patientName is present and non-empty; the stored value is then the trimmed
input — never null, but possibly the empty string when the input was
whitespace-only. -/
theorem record_patientName_policy (id date : String) (request : ValidatedAnalysisRequest)
    (analysis : Json) :
    ((createAnalysisRecord id date request analysis).patientName = none ↔
      (request.patientName = none ∨ request.patientName = some ""))
    ∧ (∀ s, request.patientName = some s → s ≠ "" →
        (createAnalysisRecord id date request analysis).patientName = some (jsTrim s)) := by
  cases h : request.patientName with
  | none => simp [createAnalysisRecord, h]
  | some s =>
      by_cases hs : s = "" <;>
        simp_all [createAnalysisRecord, h]

/-- Witness for claim C7: a padded patient name is stored trimmed. -/
theorem record_patientName_policy_witness :
    (createAnalysisRecord "analysis_2" "2026-10-11T00:00:00.000Z"
        { dentistName := "Dr. Lee", dentistMobileNumber := "+1234567890",
          patientName := some " Amy ", toothImage1 := "a", toothImage2 := "b" }
        (.obj [])).patientName = some "Amy" :=
  (record_patientName_policy "analysis_2" "2026-10-11T00:00:00.000Z"
      { dentistName := "Dr. Lee", dentistMobileNumber := "+1234567890",
        patientName := some " Amy ", toothImage1 := "a", toothImage2 := "b" }
      (.obj [])).2 " Amy " rfl (by decide)

/-- Counterexample for claim C7 as stated: a whitespace-only patientName is
truthy, so the record receives a patientName key whose trimmed value is the
empty string — the claim says the record value is never an empty string. -/
theorem whitespace_patientName_recorded_empty :
    (createAnalysisRecord "analysis_1" "2026-10-11T00:00:00.000Z"
        whitespacePatientRequest (.obj [])).patientName = some "" := by rfl

/-- Claim C9: every parsed JSON value that is null or a non-object (number,
boolean, string) is rejected by the object gate with the 500
invalid-response-format error before any field validation; a top-level array
passes the gate and fails only at the first field check. -/
theorem parse_gate_rejects_nonobjects :
    (∀ j : Json, isObjLike j = false →
      parseAnalysisResponse j = .error ⟨500, "Invalid response format from analysis service"⟩)
    ∧ (∀ zs : List Json, parseAnalysisResponse (.arr zs) =
        .error ⟨500, "Missing or invalid estimated_tooth_type in analysis response"⟩) := by
  constructor
  · intro j hj
    cases j <;> simp_all [parseAnalysisResponse, isObjLike, jtruthy, jtypeof]
  · intro zs
    simp [parseAnalysisResponse, jtruthy, jtypeof, finalRecOf, getField,
      nonEmptyStringField, otruthy]

/-- Witness for claim C9: null is rejected by the object gate. -/
theorem parse_gate_rejects_nonobjects_witness :
    parseAnalysisResponse .null = .error ⟨500, "Invalid response format from analysis service"⟩ :=
  parse_gate_rejects_nonobjects.1 .null rfl

/-- Characterization of the regex test through stripLeadingPlus: it accepts
exactly when the remainder after the optional plus is a digit 1-9 followed by
at most 15 digits. -/
lemma phoneRegexTest_iff_strip (t : String) :
    phoneRegexTest t = true ↔ ∃ c rest, stripLeadingPlus t.data = c :: rest ∧
      '1' ≤ c ∧ c ≤ '9' ∧ rest.length ≤ 15 ∧ ∀ d ∈ rest, d.isDigit = true := by
  simp only [phoneRegexTest]
  cases hstrip : stripLeadingPlus t.data with
  | nil => simp
  | cons c rest =>
      simp only [Bool.and_eq_true, decide_eq_true_eq, List.all_eq_true, List.cons.injEq]
      constructor
      · rintro ⟨⟨⟨h1, h2⟩, h3⟩, h4⟩
        exact ⟨c, rest, ⟨rfl, rfl⟩, h1, h2, h3, h4⟩
      · rintro ⟨c2, r2, ⟨rfl, rfl⟩, h1, h2, h3, h4⟩
        exact ⟨⟨⟨h1, h2⟩, h3⟩, h4⟩

/-- Characterization of the claim-side pattern through stripLeadingPlus: since
an accepted first character is a digit 1-9 and hence not the plus sign, the
claim's two cases (with or without leading plus) collapse to the stripped
form. -/
lemma phonePattern_iff_strip (t : String) :
    PhonePattern t ↔ ∃ c rest, stripLeadingPlus t.data = c :: rest ∧
      '1' ≤ c ∧ c ≤ '9' ∧ rest.length ≤ 15 ∧ ∀ d ∈ rest, d.isDigit = true := by
  constructor
  · rintro ⟨digits, hor, c, rest, rfl, h1, h2, h3, h4⟩
    refine ⟨c, rest, ?_, h1, h2, h3, h4⟩
    rcases hor with h | h <;> rw [h]
    · have hcp : c ≠ '+' := by
        intro he; subst he; exact absurd h1 (by decide)
      simp [stripLeadingPlus, hcp]
    · simp [stripLeadingPlus]
  · rintro ⟨c, rest, hstrip, h1, h2, h3, h4⟩
    cases hcs : t.data with
    | nil =>
        rw [hcs] at hstrip
        simp [stripLeadingPlus] at hstrip
    | cons a as =>
        rw [hcs] at hstrip
        by_cases ha : a = '+'
        · subst ha
          simp only [stripLeadingPlus, if_pos rfl] at hstrip
          subst hstrip
          exact ⟨c :: rest, Or.inr hcs, c, rest, rfl, h1, h2, h3, h4⟩
        · simp only [stripLeadingPlus, if_neg ha] at hstrip
          rw [hstrip] at hcs
          exact ⟨c :: rest, Or.inl hcs, c, rest, rfl, h1, h2, h3, h4⟩

/-- The source regex test and the claim-side pattern agree on every string. -/
lemma phoneRegexTest_iff (t : String) : phoneRegexTest t = true ↔ PhonePattern t :=
  (phoneRegexTest_iff_strip t).trans (phonePattern_iff_strip t).symm

/-- Claim C10: a string mobile number is accepted (no errors) iff its trimmed
form matches an optional leading plus, a first digit 1-9, and at most 15
further digits — so first-digit-zero numbers and numbers with more than 16
digits are rejected, with the invalid-mobile-number message whenever the
string is non-empty. -/
theorem mobile_accept_iff_pattern (s : String) :
    (validateMobileNumber (some (.str s)) = [] ↔ PhonePattern (jsTrim s))
    ∧ (s ≠ "" → ¬ PhonePattern (jsTrim s) →
        validateMobileNumber (some (.str s)) = ["Please provide a valid mobile number"]) := by
  have hmain : ∀ h : s ≠ "", ∀ b : Bool, phoneRegexTest (jsTrim s) = b →
      validateMobileNumber (some (.str s)) =
        (if b then [] else ["Please provide a valid mobile number"]) := by
    intro hne b hb
    have hbeq : (s == "") = false := by simp [hne]
    cases b <;> simp [validateMobileNumber, hbeq, hb]
  constructor
  · by_cases hs : s = ""
    · subst hs
      constructor
      · intro h
        exact absurd h (by decide)
      · rintro ⟨digits, hor, c, rest, hdig, -⟩
        rcases hor with h | h
        · rw [show (jsTrim "").data = [] from rfl] at h
          subst h
          cases hdig
        · rw [show (jsTrim "").data = [] from rfl] at h
          cases h
    · cases hp : phoneRegexTest (jsTrim s) with
      | true =>
          rw [hmain hs true hp]
          constructor
          · intro _
            exact (phoneRegexTest_iff (jsTrim s)).mp hp
          · intro _
            simp
      | false =>
          rw [hmain hs false hp]
          simp only [Bool.false_eq_true, if_false]
          constructor
          · intro h; cases h
          · intro hpp
            have := (phoneRegexTest_iff (jsTrim s)).mpr hpp
            rw [hp] at this
            cases this
  · intro hs hpp
    have hp : phoneRegexTest (jsTrim s) = false := by
      cases hp2 : phoneRegexTest (jsTrim s) with
      | false => rfl
      | true => exact absurd ((phoneRegexTest_iff (jsTrim s)).mp hp2) hpp
    rw [hmain hs false hp]
    simp

/-- Witness for claim C10: a ten-digit number with leading plus is accepted;
a number with leading digit zero is rejected with the invalid message. -/
theorem mobile_accept_iff_pattern_witness :
    validateMobileNumber (some (.str "+1234567890")) = []
    ∧ validateMobileNumber (some (.str "0123")) = ["Please provide a valid mobile number"] :=
  ⟨(mobile_accept_iff_pattern "+1234567890").1.mpr
      ⟨['1', '2', '3', '4', '5', '6', '7', '8', '9', '0'], Or.inr rfl,
        '1', ['2', '3', '4', '5', '6', '7', '8', '9', '0'], rfl,
        by decide, by decide, by decide, by decide⟩,
    (mobile_accept_iff_pattern "0123").2 (by decide)
      (by
        rintro ⟨digits, hor, c, rest, hdig, h1, -⟩
        rcases hor with h | h
        · rw [show (jsTrim "0123").data = ['0', '1', '2', '3'] from rfl] at h
          subst h
          injection hdig with hc hrest
          subst hc
          exact absurd h1 (by decide)
        · rw [show (jsTrim "0123").data = ['0', '1', '2', '3'] from rfl] at h
          injection h with hc hrest
          exact absurd hc (by decide))⟩

/-- Structure of the comma splitter: the head segment is the pending
accumulator followed by the characters up to the first comma, and the tail is
the split of whatever follows the first comma. -/
lemma splitOnCommaAux_structure (cs : List Char) : ∀ acc : List Char,
    splitOnCommaAux cs acc =
      (acc.reverse ++ cs.takeWhile (fun c => !(c == ','))) ::
        ((afterFirstComma cs).map (fun rest => splitOnCommaAux rest [])).getD [] := by
  induction cs with
  | nil => intro acc; simp [splitOnCommaAux, afterFirstComma]
  | cons c rest ih =>
      intro acc
      by_cases hc : c = ','
      · subst hc
        simp [splitOnCommaAux, afterFirstComma, List.takeWhile_cons]
      · simp only [splitOnCommaAux, if_neg hc, afterFirstComma]
        rw [ih (c :: acc)]
        simp [List.takeWhile_cons, hc]

/-- JS split(',')[1] is the text after the first comma, cut at the next
comma. -/
lemma jsSplitComma_second (s : String) :
    (jsSplitComma s).get? 1 = (afterFirstComma s.data).map
      (fun rest => String.mk (rest.takeWhile (fun c => !(c == ',')))) := by
  rw [jsSplitComma, splitOnCommaAux_structure s.data []]
  cases h : afterFirstComma s.data with
  | none => simp
  | some rest =>
      simp only [h, Option.map_some', Option.getD_some]
      rw [splitOnCommaAux_structure rest []]
      simp [List.get?]

/-- The code's insufficiency condition coincides with the claim-side
second-segment description. -/
lemma insufficientBase64_eq_secondSegment (s : String) :
    insufficientBase64 s = secondSegmentTooShort s := by
  rw [insufficientBase64, jsSplitComma_second, secondSegmentTooShort]
  cases h : afterFirstComma s.data with
  | none => simp
  | some rest =>
      simp only [Option.map_some']
      by_cases hseg : (rest.takeWhile (fun c => !(c == ','))) = []
      · simp [hseg]
      · have h1 : (String.mk (rest.takeWhile (fun c => !(c == ','))) == "") = false := by
          simp only [beq_eq_false_iff_ne, ne_eq]
          intro he
          exact hseg (congrArg String.data he)
        have h2 : (String.mk (rest.takeWhile (fun c => !(c == ',')))).length =
            (rest.takeWhile (fun c => !(c == ','))).length := rfl
        simp [h1, h2]

/-- Claim C8 (amended): for every non-empty image string, the
insufficient-image-data error is appended iff the segment between the first
and the second comma (JS split(',')[1], the quantity the 100-character
threshold is applied to) is absent or shorter than 100 characters. -/
theorem image_min_size_heuristic (s : String) (hs : s ≠ "") :
    ("toothImage1 appears to contain invalid or insufficient image data" ∈
        validateImageDataURI (some (.str s)) "toothImage1") ↔
      secondSegmentTooShort s = true := by
  have hb : (s == "") = false := by simp [hs]
  rw [← insufficientBase64_eq_secondSegment]
  simp only [validateImageDataURI, hb, Bool.false_eq_true, if_false]
  cases h1 : dataUriTest s <;> cases h2 : insufficientBase64 s <;>
    simp [h1, h2, List.mem_append]

/-- Witness for claim C8: a three-character base64 segment triggers the
insufficient-image-data error. -/
theorem image_min_size_heuristic_witness :
    ("toothImage1 appears to contain invalid or insufficient image data" ∈
        validateImageDataURI (some (.str "data:image/png;base64,abc")) "toothImage1") :=
  (image_min_size_heuristic "data:image/png;base64,abc" (by decide)).mpr (by decide)

set_option maxRecDepth 4096 in
/-- Counterexample for claim C8 as stated: commaImageStr carries 151
characters after its first comma (second conjunct), yet the code appends the
insufficient-image-data error, because split(',')[1] is only the 50-character
segment between the first and second comma. -/
theorem image_size_after_first_comma_counterexample :
    ("toothImage1 appears to contain invalid or insufficient image data" ∈
        validateImageDataURI (some (.str commaImageStr)) "toothImage1")
    ∧ 100 ≤ ((afterFirstComma commaImageStr.data).getD []).length := by
  constructor
  · have h2 : insufficientBase64 commaImageStr = true := by decide
    have hb : (commaImageStr == "") = false := by decide
    simp [validateImageDataURI, hb, h2]
  · decide

end HealNow
